import Mathlib

/-!
Shallow embedding of the EBYTE E32 LoRa driver (loraE32.py) and proofs about
its configuration codec, checksum, framing, mode handling and polling loop.
Python strings are modelled as Lean strings or character lists, Python ints as
Nat (with explicit mod where masking occurs), caught exceptions as error
results, and the serial device as an explicit trace of written frames plus an
input parameter for each read.
-/

/-- Python exception kinds raised by the modelled code paths. -/
inductive PyErr
  | valueError
  | typeError
deriving DecidableEq

/-- Python scalar value: the channel config field holds an int normally and a
hex string after the frequency clamp in calcFrequency. -/
inductive PyScalar
  | int (n : Nat)
  | str (s : String)
deriving DecidableEq

/-- Value of a string of decimal digit characters, as Python int() reads it. -/
def decVal (cs : List Char) : Nat :=
  cs.foldl (fun a c => a * 10 + (c.toNat - 48)) 0

/-- Python int(s) with its default base 10: fails (ValueError) unless the
string is a nonempty run of decimal digit characters. In particular a string
carrying a literal 0b prefix is rejected. -/
def pyInt10 (cs : List Char) : Option Nat :=
  if cs ≠ [] ∧ cs.all Char.isDigit then some (decVal cs) else none

/-- Left-pad a digit list with zero characters to the given width, as the
zero-padded Python format specifiers do. -/
def padZeros (w : Nat) (cs : List Char) : List Char :=
  List.replicate (w - cs.length) '0' ++ cs

/-- Python format(n, '08b') and friends: binary digits, zero-padded to width w. -/
def formatBin (w : Nat) (n : Nat) : List Char :=
  padZeros w (Nat.toDigits 2 n)

/-- Python str() of a nonnegative int: its decimal digits. -/
def strNat (n : Nat) : List Char := Nat.toDigits 10 n

/-- Hexadecimal digit characters of n, lowercase, by fuel-bounded recursion;
fuel n+1 always suffices. -/
def hexGo : Nat → Nat → List Char
  | 0, _ => []
  | fuel + 1, n =>
    if n < 16 then [Nat.digitChar n]
    else hexGo fuel (n / 16) ++ [Nat.digitChar (n % 16)]

/-- Hexadecimal digits of n, lowercase, no prefix. -/
def natToHex (n : Nat) : List Char := hexGo (n + 1) n

/-- Python hex(n): 0x-prefixed lowercase hexadecimal string. -/
def pyHex (n : Nat) : String := String.mk ('0' :: 'x' :: natToHex n)

/-- Python '%2X' % n: uppercase hexadecimal, space-padded to minimum width 2. -/
def format2X (n : Nat) : String :=
  let ds := (natToHex n).map Char.toUpper
  String.mk (if ds.length < 2 then ' ' :: ds else ds)

/-- Value of one hexadecimal digit character, if any; both cases accepted. -/
def hexDigitVal (c : Char) : Option Nat :=
  if '0' ≤ c ∧ c ≤ '9' then some (c.toNat - 48)
  else if 'a' ≤ c ∧ c ≤ 'f' then some (c.toNat - 87)
  else if 'A' ≤ c ∧ c ≤ 'F' then some (c.toNat - 55)
  else none

/-- Python int(s, 16): strips spaces, accepts an optional 0x prefix, then
reads hexadecimal digits; fails (ValueError) on any other character or on an
empty digit run. -/
def pyInt16 (s : String) : Option Nat :=
  let cs := s.data.dropWhile (· = ' ')
  let cs := match cs with
    | '0' :: 'x' :: rest => rest
    | '0' :: 'X' :: rest => rest
    | _ => cs
  if cs = [] then none
  else cs.foldl (fun a c => a.bind fun v => (hexDigitVal c).map fun d => v * 16 + d) (some 0)

/-- UART parity table PARSTR: parity name to its two bit characters. -/
def PARSTR (p : String) : Option (List Char) :=
  if p = "8N1" then some ['0', '0']
  else if p = "8O1" then some ['0', '1']
  else if p = "8E1" then some ['1', '0']
  else none

/-- Inverse parity table PARINV: two bit characters to the parity name. -/
def PARINV (bits : List Char) : Option String :=
  if bits = ['0', '0'] then some "8N1"
  else if bits = ['0', '1'] then some "8O1"
  else if bits = ['1', '0'] then some "8E1"
  else none

/-- UART baudrate table BAUDRATE: baudrate to its three bit characters. -/
def BAUDRATE (b : Nat) : Option (List Char) :=
  if b = 1200 then some ['0', '0', '0']
  else if b = 2400 then some ['0', '0', '1']
  else if b = 4800 then some ['0', '1', '0']
  else if b = 9600 then some ['0', '1', '1']
  else if b = 19200 then some ['1', '0', '0']
  else if b = 38400 then some ['1', '0', '1']
  else if b = 57600 then some ['1', '1', '0']
  else if b = 115200 then some ['1', '1', '1']
  else none

/-- Inverse baudrate table BAUDRINV. -/
def BAUDRINV (bits : List Char) : Option Nat :=
  if bits = ['0', '0', '0'] then some 1200
  else if bits = ['0', '0', '1'] then some 2400
  else if bits = ['0', '1', '0'] then some 4800
  else if bits = ['0', '1', '1'] then some 9600
  else if bits = ['1', '0', '0'] then some 19200
  else if bits = ['1', '0', '1'] then some 38400
  else if bits = ['1', '1', '0'] then some 57600
  else if bits = ['1', '1', '1'] then some 115200
  else none

/-- LoRa air data rate table DATARATE: rate name to its three bit characters. -/
def DATARATE (d : String) : Option (List Char) :=
  if d = "0.3k" then some ['0', '0', '0']
  else if d = "1.2k" then some ['0', '0', '1']
  else if d = "2.4k" then some ['0', '1', '0']
  else if d = "4.8k" then some ['0', '1', '1']
  else if d = "9.6k" then some ['1', '0', '0']
  else if d = "19.2k" then some ['1', '0', '1']
  else none

/-- Inverse air data rate table DATARINV. -/
def DATARINV (bits : List Char) : Option String :=
  if bits = ['0', '0', '0'] then some "0.3k"
  else if bits = ['0', '0', '1'] then some "1.2k"
  else if bits = ['0', '1', '0'] then some "2.4k"
  else if bits = ['0', '1', '1'] then some "4.8k"
  else if bits = ['1', '0', '0'] then some "9.6k"
  else if bits = ['1', '0', '1'] then some "19.2k"
  else none

/-- Command opcode table CMDS. -/
def CMDS (c : String) : Option Nat :=
  if c = "setConfigPwrDwnSave" then some 0xC0
  else if c = "getConfig" then some 0xC1
  else if c = "setConfigPwrDwnNoSave" then some 0xC2
  else if c = "getVersion" then some 0xC3
  else if c = "reset" then some 0xC4
  else none

/-- Operation mode table OPERMODE: mode name to the M0/M1 bit pattern. -/
def OPERMODE (m : String) : Option String :=
  if m = "normal" then some "00"
  else if m = "wakeup" then some "10"
  else if m = "powersave" then some "01"
  else if m = "sleep" then some "11"
  else none

/-- Model frequency range table FREQ: band key to (minimum, base, maximum)
frequency in MHz. -/
def FREQ (k : Nat) : Option (Nat × Nat × Nat) :=
  if k = 170 then some (160, 170, 173)
  else if k = 400 then some (410, 470, 525)
  else if k = 433 then some (410, 433, 441)
  else if k = 868 then some (862, 868, 893)
  else if k = 915 then some (900, 915, 931)
  else none

/-- Version info frequency table FREQV, keyed by the hex() string of the
second version response byte. -/
def FREQV (k : String) : Option Nat :=
  if k = "0x32" then some 433
  else if k = "0x38" then some 470
  else if k = "0x45" then some 868
  else if k = "0x44" then some 915
  else if k = "0x46" then some 170
  else none

/-- The config record self.config, restricted to the fields read or written by
the modelled operations; the model, port and frequency entries are carried
unchanged by all of them and are omitted. Fields assigned from an inverse
table lookup are Options, since dict.get returns None on a missing key. -/
structure Config where
  address : Nat
  channel : Nat
  parity : Option String
  baudrate : Option Nat
  datarate : Option String
  transmode : Nat
  iomode : Nat
  wutime : Nat
  fec : Nat
  txpower : Nat
deriving DecidableEq

/-- Driver state: the in-memory config record, the persisted snapshot file
E32config.json, the frames written to the serial device (oldest first), the
M0/M1 operating mode bit pattern, and the debug flag. -/
structure DriverState where
  config : Config
  saved : Option Config
  writes : List (List Nat)
  mode : String
  debug : Bool
deriving DecidableEq

/-- Constructor defaults of the config record (lines 117-133). -/
def defaultConfig : Config :=
  ⟨0, 6, some "8N1", some 9600, some "2.4k", 0, 1, 0, 1, 0⟩

/-- A fresh driver with the constructor defaults, nothing persisted and
nothing written. -/
def defaultState : DriverState :=
  ⟨defaultConfig, none, [], "00", false⟩

/-- decodeConfig (lines 402-421): update the config record from a 6-byte
config message; byte 0 (the header) is read but not stored. Indexing is in
bounds at every call site since a length of 6 is checked before each call.
The bit slices of byte 5 are read with int() in its default base 10, exactly
as the source does, so the 3-bit wakeup time and the 2-bit tx power fields
receive the decimal reading of their binary digits; formatBin only produces
digit characters, so this int() cannot fail and equals decVal. -/
def decodeConfig (message : List Nat) (cfg : Config) : Config :=
  let bits3 := formatBin 8 (message.getD 3 0)
  let bits5 := formatBin 8 (message.getD 5 0)
  { cfg with
    address := message.getD 1 0 * 256 + message.getD 2 0
    parity := PARINV (bits3.take 2)
    baudrate := BAUDRINV ((bits3.drop 2).take 3)
    datarate := DATARINV (bits3.drop 5)
    channel := message.getD 4 0
    transmode := decVal (bits5.take 1)
    iomode := decVal ((bits5.drop 1).take 1)
    wutime := decVal ((bits5.drop 2).take 3)
    fec := decVal ((bits5.drop 5).take 1)
    txpower := decVal (bits5.drop 6) }

/-- encodeConfig (lines 424-450): build the 6-byte config message. The two
bit strings carry a literal 0b prefix and are handed to int() with its default
base 10, exactly as the source does; a missing table entry makes the string
concatenation raise TypeError (str plus None). -/
def encodeConfig (cfg : Config) : Except PyErr (List Nat) :=
  match cfg.parity.bind PARSTR, cfg.baudrate.bind BAUDRATE, cfg.datarate.bind DATARATE with
  | some p, some b, some d =>
    match pyInt10 (['0', 'b'] ++ p ++ b ++ d) with
    | none => .error .valueError
    | some byte3 =>
      match pyInt10 (['0', 'b'] ++ strNat cfg.transmode ++ strNat cfg.iomode ++
          formatBin 3 cfg.wutime ++ strNat cfg.fec ++ formatBin 2 cfg.txpower) with
      | none => .error .valueError
      | some byte5 =>
        .ok [0xC0, cfg.address / 256, cfg.address % 256, byte3, cfg.channel, byte5]
  | _, _, _ => .error .typeError

/-- Python int(s, 0): a 0b prefix selects base 2. The bit strings built by
encodeConfig were evidently meant to be parsed this way; the repository's own
doctest (loraE32cp.py) gives encodeConfig() = [192, 0, 1, 26, 4, 68], the
base-2 reading. Used to test the claimed round trip against the intended
register layout. -/
def pyInt0 (cs : List Char) : Option Nat :=
  match cs with
  | '0' :: 'b' :: rest =>
    if rest ≠ [] ∧ rest.all (fun c => c = '0' ∨ c = '1') then
      some (rest.foldl (fun a c => a * 2 + (c.toNat - 48)) 0)
    else none
  | cs => pyInt10 cs

/-- encodeConfig with the intended base-2 reading of its 0b bit strings;
identical to encodeConfig in every other respect. -/
def encodeConfigIntended (cfg : Config) : Except PyErr (List Nat) :=
  match cfg.parity.bind PARSTR, cfg.baudrate.bind BAUDRATE, cfg.datarate.bind DATARATE with
  | some p, some b, some d =>
    match pyInt0 (['0', 'b'] ++ p ++ b ++ d) with
    | none => .error .valueError
    | some byte3 =>
      match pyInt0 (['0', 'b'] ++ strNat cfg.transmode ++ strNat cfg.iomode ++
          formatBin 3 cfg.wutime ++ strNat cfg.fec ++ formatBin 2 cfg.txpower) with
      | none => .error .valueError
      | some byte5 =>
        .ok [0xC0, cfg.address / 256, cfg.address % 256, byte3, cfg.channel, byte5]
  | _, _, _ => .error .typeError

/-- calcChecksum (lines 285-288): the low byte of the two's complement of the
character sum, in '%2X' notation (uppercase hexadecimal, space-padded to
width 2). The payload is given by its character code points; masking a Python
int with 0xFF is arithmetic mod 256. -/
def calcChecksum (payload : List Nat) : String :=
  format2X (Int.toNat ((-((payload.sum : Int) % 256)) % 256))

/-- Python int(model.split('T')[0]) as calcFrequency computes it: the first
split('T') component is the run of characters before the first T, read by
int() in base 10; a non-numeric prefix makes int() raise ValueError (none). -/
def modelFreqKey (model : String) : Option Nat :=
  pyInt10 (model.data.takeWhile (fun c => c ≠ 'T'))

/-- calcFrequency (lines 500-512): frequency = band minimum + channel, clamped
to the band maximum; on clamping the channel is rewritten to hex(max - min),
a string. A model prefix that is no FREQ key makes the None subscript raise
TypeError. -/
def calcFrequency (model : String) (channel : Nat) : Except PyErr (Nat × PyScalar) :=
  match modelFreqKey model with
  | none => .error .valueError
  | some freqkey =>
    match FREQ freqkey with
    | none => .error .typeError
    | some (minfreq, _, maxfreq) =>
      let freq := minfreq + channel
      if freq > maxfreq then .ok (maxfreq, .str (pyHex (maxfreq - minfreq)))
      else .ok (freq, .int channel)

/-- waitForDeviceIdle (lines 473-484): poll the AUX line until it reads high
or the busy count reaches 10. aux gives the line reading of each poll; the
result is how many polls were made. The fuel argument only bounds the
recursion; every fuel from 10 up gives the same result. -/
def waitGo (aux : Nat → Bool) : Nat → Nat → Nat → Nat
  | _, count, 0 => count
  | i, count, fuel + 1 =>
    if aux i then count + 1
    else if count + 1 = 10 then count + 1
    else waitGo aux (i + 1) (count + 1) fuel

/-- Number of AUX polls a waitForDeviceIdle call makes. -/
def waitForDeviceIdlePolls (aux : Nat → Bool) : Nat := waitGo aux 0 0 10

/-- setOperationMode (lines 546-554): drive M0/M1 to the bit pattern of the
mode, defaulting to 00 (normal) for unknown names, then settle 50 ms. -/
def setOperationMode (mode : String) (st : DriverState) : DriverState :=
  { st with mode := (OPERMODE mode).getD "00" }

/-- Result of sendCommand: the bytes read back, a None read, the empty string
returned for reset, or the NOK string produced when an exception was caught. -/
inductive SendResult
  | readBytes (bs : List Nat)
  | readNone
  | emptyStr
  | errNOK
deriving DecidableEq

/-- Python len() of a sendCommand result; len(None) raises TypeError. -/
def pyLenS : SendResult → Option Nat
  | .readBytes bs => some bs.length
  | .readNone => none
  | .emptyStr => some 0
  | .errNOK => some 3

/-- sendCommand (lines 319-353): put the device in sleep mode, write the
3-byte or 6-byte command frame, and read the response; deviceResp is what the
serial read would return. For the two set-config commands encodeConfig raises
ValueError before anything is written, caught as NOK. An unknown command name
gives HexCmd = None, and bytes([None, None, None]) raises TypeError, also
caught as NOK. -/
def sendCommand (command : String) (st : DriverState) (deviceResp : Option (List Nat)) :
    DriverState × SendResult :=
  let st := setOperationMode "sleep" st
  match CMDS command with
  | none => (st, .errNOK)
  | some op =>
    if op = 0xC0 ∨ op = 0xC2 then
      match encodeConfig st.config with
      | .error _ => (st, .errNOK)
      | .ok msg =>
        let st := { st with writes := st.writes ++ [msg.set 0 op] }
        if command = "reset" then (st, .emptyStr)
        else
          match deviceResp with
          | none => (st, .readNone)
          | some bs => (st, .readBytes bs)
    else
      let st := { st with writes := st.writes ++ [[op, op, op]] }
      if command = "reset" then (st, .emptyStr)
      else
        match deviceResp with
        | none => (st, .readNone)
        | some bs => (st, .readBytes bs)

/-- saveConfigToJson (lines 487-490): overwrite the snapshot file with the
current config record. -/
def saveConfigToJson (st : DriverState) : DriverState :=
  { st with saved := some st.config }

/-- showConfig (lines 453-470) succeeds iff its two fragile prints do: a None
baudrate makes the %d conversion raise TypeError, and a txpower outside the
TXPOWER table makes the subscript on None raise TypeError. -/
def showConfigOk (cfg : Config) : Bool :=
  cfg.baudrate.isSome && decide (cfg.txpower < 4)

/-- setConfig (lines 522-543) given the result its sendCommand call returned:
a result without length 6 gives NOK and no state change (len(None) raising
TypeError included); a 6-byte response is decoded into the config record only
under the debug flag, and then shown, which can itself raise and is caught as
NOK before the snapshot is saved; finally the snapshot is written and OK
returned. The catch-all branch is unreachable: only a byte read can have
length 6. -/
def setConfigCore (st : DriverState) (result : SendResult) : DriverState × String :=
  match pyLenS result with
  | none => (st, "NOK")
  | some n =>
    if n ≠ 6 then (st, "NOK")
    else
      match result with
      | .readBytes bs =>
        if st.debug then
          let st := { st with config := decodeConfig bs st.config }
          if showConfigOk st.config then (saveConfigToJson st, "OK") else (st, "NOK")
        else (saveConfigToJson st, "OK")
      | _ => (st, "NOK")

/-- setConfig composed with its sendCommand call. -/
def setConfig (saveCmd : String) (st : DriverState) (deviceResp : Option (List Nat)) :
    DriverState × String :=
  let sr := sendCommand saveCmd st deviceResp
  setConfigCore sr.1 sr.2

/-- setTransmissionMode (lines 515-519): update the config record and push the
configuration to the device only when the requested mode differs from the
current one. -/
def setTransmissionMode (transmode : Nat) (st : DriverState) (deviceResp : Option (List Nat)) :
    DriverState :=
  if transmode ≠ st.config.transmode then
    let st := { st with config := { st.config with transmode := transmode } }
    (setConfig "setConfigPwrDwnSave" st deviceResp).1
  else st

/-- Dictionary payloads are represented by the character codes of their
ujson.dumps serialization; nondict stands for an argument of any other type. -/
inductive Payload
  | dict (js : List Nat)
  | nondict

/-- sendMessage (lines 184-230): choose the transmission mode from the target,
go to wakeup mode, reject non-dictionary payloads, then frame the message: a
3-byte destination header in fixed mode, the serialized payload, and the
optional checksum byte, written as one frame. bytes() raises ValueError for
any element outside 0-255, caught as NOK with nothing written. -/
def sendMessage (st : DriverState) (toAddress toChannel : Nat) (payload : Payload)
    (useChecksum : Bool) (cfgResp : Option (List Nat)) : DriverState × String :=
  let st := if toAddress = st.config.address ∧ toChannel = st.config.channel
    then setTransmissionMode 0 st cfgResp
    else setTransmissionMode 1 st cfgResp
  let st := setOperationMode "wakeup" st
  match payload with
  | .nondict => (st, "NOK")
  | .dict js =>
    let head3 := if st.config.transmode = 1
      then [toAddress / 256, toAddress % 256, toChannel] else []
    let tail1 := if useChecksum then (pyInt16 (calcChecksum js)).map (fun cs => [cs])
      else some []
    match tail1 with
    | none => (st, "NOK")
    | some t =>
      let msg := head3 ++ js ++ t
      if msg.all (· < 256) then ({ st with writes := st.writes ++ [msg] }, "OK")
      else (st, "NOK")

/-- Outcome of recvMessage: the None sentinel, the corrupt-message result with
its numeric checksum, the byte string handed to the JSON parser (ujson.loads
is outside the model), or NOK from a caught exception. -/
inductive RecvOutcome
  | noMsg
  | corrupt (cs : Nat)
  | parse (msg : List Nat)
  | nok
deriving DecidableEq

/-- recvMessage (lines 233-282): choose the transmission mode from the source,
go to normal mode, read; a None read is the no-message sentinel. With
checksumming, a nonzero folded checksum of the whole received byte string is
the corrupt result; otherwise the final byte is stripped and the rest parsed. -/
def recvMessage (st : DriverState) (fromAddress fromChannel : Nat)
    (input : Option (List Nat)) (useChecksum : Bool) (cfgResp : Option (List Nat)) :
    DriverState × RecvOutcome :=
  let st := if fromAddress = st.config.address ∧ fromChannel = st.config.channel
    then setTransmissionMode 0 st cfgResp
    else setTransmissionMode 1 st cfgResp
  let st := setOperationMode "normal" st
  match input with
  | none => (st, .noMsg)
  | some bs =>
    if useChecksum then
      match pyInt16 (calcChecksum bs) with
      | none => (st, .nok)
      | some cs => if cs ≠ 0 then (st, .corrupt cs) else (st, .parse bs.dropLast)
    else (st, .parse bs)

/-- getVersion (lines 357-379): issue the version command and validate the
response. A response without length 4 gives NOK (len(None) raising TypeError
included). Byte 0 only gates the console printout; inside it an unrecognized
byte 1 maps to the string unknown, whose %d conversion raises TypeError,
caught as NOK. The config record is never touched. -/
def getVersion (st : DriverState) (deviceResp : Option (List Nat)) : DriverState × String :=
  let sr := sendCommand "getVersion" st deviceResp
  let st := sr.1
  match sr.2 with
  | .readBytes bs =>
    if bs.length ≠ 4 then (st, "NOK")
    else if bs.getD 0 0 = 0xC3 then
      match FREQV (pyHex (bs.getD 1 0)) with
      | some _ => (st, "OK")
      | none => (st, "NOK")
    else (st, "OK")
  | .readNone => (st, "NOK")
  | .emptyStr => (st, "NOK")
  | .errNOK => (st, "NOK")

/-! Helper lemmas shared by the claim theorems. -/

/-- Replacing one element of a list changes its sum by the difference of the
new and old values. -/
theorem sum_set_add (l : List Nat) (i : Fin l.length) (v : Nat) :
    (l.set i v).sum + l.get i = l.sum + v := by
  induction l with
  | nil => exact absurd i.isLt (by simp)
  | cons a l ih =>
    cases i using Fin.cases with
    | zero => simp [List.set]; omega
    | succ j =>
      have := ih j
      simp [List.set, List.sum_cons] at this ⊢
      omega

set_option maxRecDepth 4000 in
/-- Python int(s, 16) inverts the '%2X' formatting on every byte value. -/
theorem pyInt16_format2X : ∀ n < 256, pyInt16 (format2X n) = some n := by decide

/-- Numeric value of the checksum string: the additive inverse of the byte sum
mod 256. -/
theorem calcChecksum_val (bs : List Nat) :
    pyInt16 (calcChecksum bs) = some ((256 - bs.sum % 256) % 256) := by
  have h : Int.toNat ((-((bs.sum : Int) % 256)) % 256) = (256 - bs.sum % 256) % 256 := by omega
  rw [calcChecksum, h]
  exact pyInt16_format2X _ (by omega)

/-- encodeConfig never returns bytes: when all three table lookups succeed the
0b-prefixed bit string is handed to a base-10 int(), which raises ValueError;
when one fails the string concatenation raises TypeError. -/
theorem encodeConfig_isError (cfg : Config) : ∃ e, encodeConfig cfg = .error e := by
  have hb : Char.isDigit 'b' = false := rfl
  unfold encodeConfig
  cases cfg.parity.bind PARSTR with
  | none => cases cfg.baudrate.bind BAUDRATE <;> cases cfg.datarate.bind DATARATE <;> exact ⟨_, rfl⟩
  | some p =>
    cases cfg.baudrate.bind BAUDRATE with
    | none => cases cfg.datarate.bind DATARATE <;> exact ⟨_, rfl⟩
    | some b =>
      cases cfg.datarate.bind DATARATE with
      | none => exact ⟨_, rfl⟩
      | some d =>
        have h1 : pyInt10 ('0' :: 'b' :: (p ++ (b ++ d))) = none := by
          simp [pyInt10, List.all_cons, hb]
        exact ⟨.valueError, by simp [h1]⟩

/-- A save command always comes back NOK from sendCommand, with nothing
written: encodeConfig raises before the serial write. -/
theorem sendCommand_save (st : DriverState) (r : Option (List Nat)) :
    sendCommand "setConfigPwrDwnSave" st r = (setOperationMode "sleep" st, .errNOK) := by
  obtain ⟨e, he⟩ := encodeConfig_isError (setOperationMode "sleep" st).config
  simp [sendCommand, CMDS, he]

/-- setConfig with the save command only changes the operating mode. -/
theorem setConfig_save (st : DriverState) (r : Option (List Nat)) :
    setConfig "setConfigPwrDwnSave" st r = (setOperationMode "sleep" st, "NOK") := by
  simp [setConfig, sendCommand_save, setConfigCore, pyLenS]

/-- Closed form of setTransmissionMode: the identity on an equal mode, and
otherwise only the transmode field and the operating mode pins change. -/
theorem setTransmissionMode_eq (m : Nat) (st : DriverState) (r : Option (List Nat)) :
    setTransmissionMode m st r =
      if m = st.config.transmode then st
      else { st with config := { st.config with transmode := m }, mode := "11" } := by
  by_cases h : m = st.config.transmode
  · simp [setTransmissionMode, h]
  · simp [setTransmissionMode, h, setConfig_save, setOperationMode, OPERMODE]

/-- setTransmissionMode never writes a serial frame. -/
theorem setTransmissionMode_writes (m : Nat) (st : DriverState) (r : Option (List Nat)) :
    (setTransmissionMode m st r).writes = st.writes := by
  rw [setTransmissionMode_eq]; split <;> rfl

/-- setTransmissionMode leaves the requested mode in the config record. -/
theorem setTransmissionMode_transmode (m : Nat) (st : DriverState) (r : Option (List Nat)) :
    (setTransmissionMode m st r).config.transmode = m := by
  rw [setTransmissionMode_eq]; split
  · omega
  · rfl

/-- Any fuel of at least 10 gives the canonical polling result, which never
exceeds 10 polls: the loop stops through its own break, not through fuel. -/
theorem waitGo_canon (aux : Nat → Bool) :
    ∀ (fuel i count : Nat), count < 10 → 10 ≤ count + fuel →
      waitGo aux i count fuel = waitGo aux i count (10 - count) ∧ waitGo aux i count fuel ≤ 10 := by
  intro fuel
  induction fuel with
  | zero => intro i count h1 h2; omega
  | succ f ih =>
    intro i count h1 h2
    obtain ⟨k, hk⟩ : ∃ k, 10 - count = k + 1 := ⟨9 - count, by omega⟩
    rw [hk]
    simp only [waitGo]
    cases haux : aux i with
    | true => simp [haux]; omega
    | false =>
      simp only [haux, if_false, Bool.false_eq_true]
      by_cases hc : count + 1 = 10
      · simp [hc]
      · simp only [hc, if_false]
        by_cases h1' : count + 1 < 10
        · have h2' : 10 ≤ count + 1 + f := by omega
          have := ih (i + 1) (count + 1) h1' h2'
          have hk' : 10 - (count + 1) = k := by omega
          rw [hk'] at this
          exact this
        · omega

/-- The FREQ table only holds the five listed frequency bands. -/
theorem FREQ_cases (k : Nat) (v : Nat × Nat × Nat) (h : FREQ k = some v) :
    v = (160, 170, 173) ∨ v = (410, 470, 525) ∨ v = (410, 433, 441) ∨
      v = (862, 868, 893) ∨ v = (900, 915, 931) := by
  unfold FREQ at h
  split_ifs at h <;> simp_all

/-! Claim theorems. -/

/-- C1: the configuration register codec cannot round-trip, because
encodeConfig raises ValueError on every configuration: its 0b-prefixed bit
strings are parsed by int() in base 10 (first conjunct, at the constructor
defaults). The repository's own doctest expects the base-2 readings
[192, 0, 1, 26, 4, 68] (second conjunct, proved for the intended base-2
variant). Even against that intended encoding, decodeConfig reads the 3-bit
wakeup time slice with a base-10 int(), turning wutime 3 (bits 011) into 11
(third and fourth conjuncts), so the claimed field restoration also fails. -/
theorem encodeConfig_int_base_bug :
    encodeConfig defaultConfig = .error .valueError ∧
    encodeConfigIntended ⟨1, 4, some "8N1", some 9600, some "2.4k", 0, 1, 0, 1, 0⟩ =
      .ok [192, 0, 1, 26, 4, 68] ∧
    encodeConfigIntended ⟨0, 6, some "8N1", some 9600, some "2.4k", 0, 1, 3, 1, 0⟩ =
      .ok [192, 0, 0, 26, 6, 92] ∧
    (decodeConfig [192, 0, 0, 26, 6, 92] defaultConfig).wutime = 11 :=
  ⟨rfl, rfl, rfl, rfl⟩

/-- C2: for every textual payload, the checksum byte denoted by calcChecksum's
hex string is the two's complement of the byte sum mod 256 masked to 8 bits,
and the sum of the payload bytes plus this byte is 0 mod 256. -/
theorem calcChecksum_twos_complement_zero_sum (bs : List Nat) :
    pyInt16 (calcChecksum bs) = some ((256 - bs.sum % 256) % 256) ∧
    (bs.sum + (256 - bs.sum % 256) % 256) % 256 = 0 :=
  ⟨calcChecksum_val bs, by omega⟩

/-- C3: a dictionary send to the driver's own (address, channel) writes
exactly the payload (and optional checksum) with no 3-byte destination
header, and a send to any other destination writes exactly
[address div 256, address mod 256, channel] followed by the payload (and
optional checksum), in both cases returning OK. -/
theorem sendMessage_framing (st : DriverState) (a c : Nat) (js : List Nat) (u : Bool)
    (r : Option (List Nat)) (hjs : ∀ b ∈ js, b < 256) (ha : a < 65536) (hc : c < 256) :
    (sendMessage st a c (.dict js) u r).1.writes =
      st.writes ++ [(if a = st.config.address ∧ c = st.config.channel then ([] : List Nat)
          else [a / 256, a % 256, c]) ++ js ++
        (if u then [(256 - js.sum % 256) % 256] else [])] ∧
    (sendMessage st a c (.dict js) u r).2 = "OK" := by
  by_cases h : a = st.config.address ∧ c = st.config.channel
  · have ht := setTransmissionMode_transmode 0 st r
    have hw := setTransmissionMode_writes 0 st r
    rw [sendMessage, if_pos h, if_pos h]
    have hck : (256 - js.sum % 256) % 256 < 256 := by omega
    cases u <;> simp_all [setOperationMode, calcChecksum_val, List.all_eq_true]
  · have ht := setTransmissionMode_transmode 1 st r
    have hw := setTransmissionMode_writes 1 st r
    rw [sendMessage, if_neg h, if_neg h]
    have hck : (256 - js.sum % 256) % 256 < 256 := by omega
    have hdiv : a / 256 < 256 := by omega
    have hmod : a % 256 < 256 := by omega
    cases u <;> simp_all [setOperationMode, calcChecksum_val, List.all_eq_true]

/-- C3 witness: a checksummed send from the default driver (address 0,
channel 6) to destination (3, 4) writes the prefixed frame. -/
theorem sendMessage_framing_witness :
    (sendMessage defaultState 3 4 (.dict [104, 105]) true none).1.writes =
      [[0, 3, 4, 104, 105, 47]] ∧
    (sendMessage defaultState 3 4 (.dict [104, 105]) true none).2 = "OK" := by
  have h := sendMessage_framing defaultState 3 4 [104, 105] true none
    (by decide) (by decide) (by decide)
  exact ⟨h.1.trans (by decide), h.2⟩

/-- C4 counterexample: a 6-byte response to setConfig on a non-debug driver is
accepted (OK) and the snapshot is persisted, but the config record is NOT
updated from the response bytes: the response encodes address 1 and channel 7
while the record keeps address 0 and channel 6. -/
theorem setConfig_response_not_decoded :
    (setConfigCore defaultState (.readBytes [192, 0, 1, 26, 7, 92])).2 = "OK" ∧
    ([192, 0, 1, 26, 7, 92] : List Nat).length = 6 ∧
    (setConfigCore defaultState (.readBytes [192, 0, 1, 26, 7, 92])).1.config = defaultConfig ∧
    decodeConfig [192, 0, 1, 26, 7, 92] defaultConfig ≠ defaultConfig ∧
    (setConfigCore defaultState (.readBytes [192, 0, 1, 26, 7, 92])).1.saved = some defaultConfig :=
  ⟨rfl, rfl, rfl, by decide, rfl⟩

/-- C4 (amended): given the result of its sendCommand call, setConfig leaves
both the config record and the snapshot untouched and returns NOK whenever
the result does not have length 6; a 6-byte response persists the snapshot
and returns OK, but decodes the response into the config record only when
debug is enabled — and in debug mode a decoded config whose printing fails
is left in place with the snapshot unsaved. -/
theorem setConfigCore_spec (st : DriverState) (result : SendResult) :
    (pyLenS result ≠ some 6 → setConfigCore st result = (st, "NOK")) ∧
    (∀ bs, result = .readBytes bs → bs.length = 6 → st.debug = false →
      setConfigCore st result = ({ st with saved := some st.config }, "OK")) ∧
    (∀ bs, result = .readBytes bs → bs.length = 6 → st.debug = true →
      (showConfigOk (decodeConfig bs st.config) = true →
        setConfigCore st result =
          ({ st with
              config := decodeConfig bs st.config
              saved := some (decodeConfig bs st.config) }, "OK")) ∧
      (showConfigOk (decodeConfig bs st.config) = false →
        setConfigCore st result = ({ st with config := decodeConfig bs st.config }, "NOK"))) := by
  refine ⟨?_, ?_, ?_⟩
  · intro hne
    cases result with
    | readBytes bs =>
      simp [pyLenS] at hne
      simp [setConfigCore, pyLenS, hne]
    | readNone => simp [setConfigCore, pyLenS]
    | emptyStr => simp [setConfigCore, pyLenS]
    | errNOK => simp [setConfigCore, pyLenS]
  · rintro bs rfl hlen hdbg
    simp [setConfigCore, pyLenS, hlen, hdbg, saveConfigToJson]
  · rintro bs rfl hlen hdbg
    constructor <;> intro hshow <;>
      simp [setConfigCore, pyLenS, hlen, hdbg, hshow, saveConfigToJson]

/-- C4 witness: the amended theorem applied to the default (non-debug) driver
and a concrete 6-byte response. -/
theorem setConfigCore_spec_witness :
    setConfigCore defaultState (.readBytes [192, 0, 1, 26, 7, 92]) =
      ({ defaultState with saved := some defaultConfig }, "OK") :=
  (setConfigCore_spec defaultState (.readBytes [192, 0, 1, 26, 7, 92])).2.1
    [192, 0, 1, 26, 7, 92] rfl rfl rfl

/-- C5: when band minimum + channel stays within the band maximum,
calcFrequency yields that sum as the frequency and keeps the integer channel;
when it exceeds the maximum, the frequency is clamped to the maximum and the
channel rewritten to hex(max - min), the Python hex string whose numeric
value is the clamp offset max - min. -/
theorem calcFrequency_clamp (model : String) (channel k minf midf maxf : Nat)
    (hk : modelFreqKey model = some k)
    (hf : FREQ k = some (minf, midf, maxf)) :
    (minf + channel ≤ maxf → calcFrequency model channel = .ok (minf + channel, .int channel)) ∧
    (maxf < minf + channel →
      calcFrequency model channel = .ok (maxf, .str (pyHex (maxf - minf))) ∧
      pyInt16 (pyHex (maxf - minf)) = some (maxf - minf)) := by
  constructor
  · intro hle
    simp only [calcFrequency, hk, hf]
    rw [if_neg (by omega)]
  · intro hgt
    refine ⟨?_, ?_⟩
    · simp only [calcFrequency, hk, hf]
      rw [if_pos (by omega)]
    · have hv := FREQ_cases k (minf, midf, maxf) hf
      rcases hv with h | h | h | h | h <;> simp only [Prod.mk.injEq] at h <;>
        obtain ⟨rfl, rfl, rfl⟩ := h <;> decide

/-- C5 witness: the 868 MHz band with channel 40 clamps to 893 MHz and
rewrites the channel to hex(31). -/
theorem calcFrequency_clamp_witness :
    calcFrequency "868T20D" 40 = .ok (893, .str (pyHex 31)) ∧
      pyInt16 (pyHex 31) = some 31 :=
  (calcFrequency_clamp "868T20D" 40 868 862 868 893 rfl rfl).2 (by decide)

/-- C6: waitForDeviceIdle makes at most 10 AUX polls for every sequence of
line readings, idle-free sequences included; any recursion bound of at least
10 gives the same result, so the loop always stops through its own idle test
or 10-count break. -/
theorem waitForDeviceIdle_bound (aux : Nat → Bool) (fuel : Nat) (h : 10 ≤ fuel) :
    waitGo aux 0 0 fuel = waitForDeviceIdlePolls aux ∧ waitForDeviceIdlePolls aux ≤ 10 := by
  have hf := waitGo_canon aux fuel 0 0 (by omega) (by omega)
  have h10 := waitGo_canon aux 10 0 0 (by omega) (by omega)
  unfold waitForDeviceIdlePolls
  constructor
  · rw [hf.1, h10.1]
  · exact h10.2

/-- C6 witness: a line that never reads idle is polled exactly 10 times. -/
theorem waitForDeviceIdle_bound_witness :
    (10 ≤ 30 ∧ waitGo (fun _ => false) 0 0 30 = waitForDeviceIdlePolls (fun _ => false) ∧
      waitForDeviceIdlePolls (fun _ => false) ≤ 10) ∧
    waitForDeviceIdlePolls (fun _ => false) = 10 := by
  refine ⟨⟨by decide, ?_⟩, by decide⟩
  exact waitForDeviceIdle_bound (fun _ => false) 30 (by decide)

/-- C7: a checksummed receive of a nonzero-sum byte string yields the corrupt
result carrying the folded checksum and never reaches the parser; a zero-sum
byte string is parsed with the trailing checksum byte stripped; and replacing
any single byte of a zero-sum frame with a different byte value yields the
corrupt result. -/
theorem recvMessage_checksum_guard (st : DriverState) (a c : Nat) (bs : List Nat)
    (r : Option (List Nat)) (hne : bs ≠ []) (hbytes : ∀ b ∈ bs, b < 256) :
    (bs.sum % 256 ≠ 0 →
      (recvMessage st a c (some bs) true r).2 = .corrupt ((256 - bs.sum % 256) % 256)) ∧
    (bs.sum % 256 = 0 → (recvMessage st a c (some bs) true r).2 = .parse bs.dropLast) ∧
    (∀ (i : Fin bs.length) (v : Nat), v < 256 → v ≠ bs.get i → bs.sum % 256 = 0 →
      ∃ cs, cs ≠ 0 ∧ (recvMessage st a c (some (bs.set i v)) true r).2 = .corrupt cs) := by
  refine ⟨?_, ?_, ?_⟩
  · intro h
    have hnz : (256 - bs.sum % 256) % 256 ≠ 0 := by omega
    simp [recvMessage, calcChecksum_val, hnz]
  · intro h
    simp [recvMessage, calcChecksum_val, h]
  · intro i v hv hvne h0
    have hset := sum_set_add bs i v
    have hgl : bs.get i < 256 := hbytes _ (List.get_mem bs i.1 i.2)
    have hnz : (bs.set i v).sum % 256 ≠ 0 := by omega
    refine ⟨(256 - (bs.set i v).sum % 256) % 256, by omega, ?_⟩
    have hnz2 : (256 - (bs.set i v).sum % 256) % 256 ≠ 0 := by omega
    simp [recvMessage, calcChecksum_val, hnz2]

/-- C7 witness: the zero-sum frame [123, 133] parses to [123]; flipping its
first byte to 5 yields a corrupt result. -/
theorem recvMessage_checksum_guard_witness :
    ([123, 133] : List Nat) ≠ [] ∧
    (recvMessage defaultState 0 6 (some [123, 133]) true none).2 = .parse [123] ∧
    (∃ cs, cs ≠ 0 ∧
      (recvMessage defaultState 0 6 (some (([123, 133] : List Nat).set 0 5)) true none).2 =
        .corrupt cs) := by
  have h := recvMessage_checksum_guard defaultState 0 6 [123, 133] none (by decide) (by decide)
  exact ⟨by decide, h.2.1 (by decide), h.2.2 ⟨0, by decide⟩ 5 (by decide) (by decide) (by decide)⟩

/-- C8 counterexample: a length-4 version response whose first byte is not the
0xC3 opcode still returns OK, where the claim requires NOK. -/
theorem getVersion_ok_without_opcode :
    (getVersion defaultState (some [0, 50, 1, 2])).2 = "OK" ∧
    ([0, 50, 1, 2] : List Nat).length = 4 ∧ (0 : Nat) ≠ 0xC3 :=
  ⟨rfl, rfl, by decide⟩

/-- C8 (amended): getVersion never touches the config record or the snapshot,
and returns OK exactly when the read delivered a length-4 byte response whose
print does not fail: byte 0 only gates the console printout, and when it
equals 0xC3 an unrecognized byte 1 makes the printout raise, caught as NOK. -/
theorem getVersion_spec (st : DriverState) (resp : Option (List Nat)) :
    (getVersion st resp).1.config = st.config ∧
    (getVersion st resp).1.saved = st.saved ∧
    ((getVersion st resp).2 = "OK" ↔ ∃ bs, resp = some bs ∧ bs.length = 4 ∧
      (bs.getD 0 0 = 0xC3 → (FREQV (pyHex (bs.getD 1 0))).isSome = true)) := by
  cases resp with
  | none => simp [getVersion, sendCommand, CMDS, setOperationMode]
  | some bs =>
    by_cases hlen : bs.length = 4
    · obtain ⟨b0, b1, b2, b3, rfl⟩ : ∃ b0 b1 b2 b3, bs = [b0, b1, b2, b3] := by
        rcases bs with _ | ⟨b0, _ | ⟨b1, _ | ⟨b2, _ | ⟨b3, _ | ⟨b4, t⟩⟩⟩⟩⟩ <;> simp at hlen
        exact ⟨b0, b1, b2, b3, rfl⟩
      by_cases hop : b0 = 0xC3
      · cases hfv : FREQV (pyHex b1) with
        | none => simp [getVersion, sendCommand, CMDS, setOperationMode, hop, hfv]
        | some f => simp [getVersion, sendCommand, CMDS, setOperationMode, hop, hfv]
      · simp [getVersion, sendCommand, CMDS, setOperationMode, hop]
    · simp [getVersion, sendCommand, CMDS, setOperationMode, hlen]

/-- C8 witness: a well-formed version response is accepted. -/
theorem getVersion_spec_witness :
    (getVersion defaultState (some [195, 50, 1, 2])).2 = "OK" :=
  (getVersion_spec defaultState (some [195, 50, 1, 2])).2.2.mpr
    ⟨[195, 50, 1, 2], rfl, rfl, fun _ => rfl⟩

/-- C9: a sendMessage call whose payload is not a dictionary returns NOK and
writes nothing to the serial link, whatever the destination and driver state. -/
theorem sendMessage_nondict (st : DriverState) (a c : Nat) (u : Bool) (r : Option (List Nat)) :
    (sendMessage st a c .nondict u r).2 = "NOK" ∧
      (sendMessage st a c .nondict u r).1.writes = st.writes := by
  by_cases h : a = st.config.address ∧ c = st.config.channel <;>
    simp [sendMessage, h, setOperationMode, setTransmissionMode_writes]

/-- C10: setTransmissionMode with the already-configured mode is the identity
on the driver state — no command sent, no snapshot persisted, config record
unchanged — and any call that changes the state at all was for a differing
mode. -/
theorem setTransmissionMode_skip (m : Nat) (st : DriverState) (r : Option (List Nat))
    (h : m = st.config.transmode) :
    setTransmissionMode m st r = st ∧
    ∀ (m2 : Nat) (st2 : DriverState) (r2 : Option (List Nat)),
      setTransmissionMode m2 st2 r2 ≠ st2 → m2 ≠ st2.config.transmode := by
  constructor
  · rw [setTransmissionMode_eq, if_pos h]
  · intro m2 st2 r2 hne hm
    exact hne (by rw [setTransmissionMode_eq, if_pos hm])

/-- C10 witness: requesting transparent mode on the default driver (already
transparent) changes nothing. -/
theorem setTransmissionMode_skip_witness :
    (0 : Nat) = defaultState.config.transmode ∧
      setTransmissionMode 0 defaultState none = defaultState :=
  ⟨rfl, (setTransmissionMode_skip 0 defaultState none rfl).1⟩
